import Mathlib

/-!
Verification development for the Givebutter sync microservice
(main_fixed_recurring.py): a shallow embedding of the sync pipeline —
upstream polling with mock-data fallback, the timestamped GCS snapshot
store, donor-summary reconciliation, the sync orchestrator, and the
donor-wall query surface — together with theorems settling the
specification claims.

External effects (HTTP fetches, storage-upload failures, clock reads)
are supplied by an explicit environment record; Python runtime values
are modelled by the inductive type Value below, with Python floats
represented as exact rationals (they arise only from the single
division at the summary boundary).
-/

/-- Python/JSON-style runtime values.  Floats are modelled as exact
rationals; they are produced only by the dollars division at the
summary boundary and by the production-layout translation. -/
inductive Value : Type where
  | vNull : Value
  | vBool : Bool → Value
  | vInt : Int → Value
  | vStr : String → Value
  | vRat : ℚ → Value
  | vList : List Value → Value
  | vDict : List (String × Value) → Value

/-- First binding of a key in an association list. -/
def lookupKey {α : Type} : List (String × α) → String → Option α
  | [], _ => none
  | (k, v) :: rest, key => if k = key then some v else lookupKey rest key

namespace Value

/-- Python truthiness of a value. -/
def truthy : Value → Bool
  | vNull => false
  | vBool b => b
  | vInt n => n ≠ 0
  | vStr s => s ≠ ""
  | vRat q => q ≠ 0
  | vList xs => ¬ xs.isEmpty
  | vDict fs => ¬ fs.isEmpty

/-- Python d.get(key, default): raises AttributeError unless the
receiver is a dict. -/
def pyGet : Value → String → Value → Except String Value
  | vDict fs, k, dflt => .ok ((lookupKey fs k).getD dflt)
  | _, _, _ => .error "AttributeError: get"

/-- Field of a dict when present (no default). -/
def get? : Value → String → Option Value
  | vDict fs, k => lookupKey fs k
  | _, _ => none

/-- Field of a dict, vNull when absent or when the receiver is not a
dict; pure counterpart of pyGet with default None. -/
def getf (v : Value) (k : String) : Value :=
  ((v.get? k).getD vNull)

/-- Python str() on the values this service renders.  The rational and
container cases are placeholders: the code under verification only ever
stringifies scalars (ids, names, phone digits). -/
def pyStr : Value → String
  | vNull => "None"
  | vBool true => "True"
  | vBool false => "False"
  | vInt n => toString n
  | vStr s => s
  | vRat q => toString q
  | vList _ => "[list]"
  | vDict _ => "[dict]"

/-- Numeric view of a value (Python treats bools as 0/1 numbers). -/
def toNum? : Value → Option ℚ
  | vBool b => some (if b then 1 else 0)
  | vInt n => some (n : ℚ)
  | vRat q => some q
  | _ => none

/-- Python equality as used by this service: numeric cross-type
equality on numbers, structural equality on None and strings; the
container cases only ever get compared against scalars here, which
Python answers with False. -/
def pyEq (a b : Value) : Bool :=
  match a.toNum?, b.toNum? with
  | some x, some y => x == y
  | _, _ =>
    match a, b with
    | vNull, vNull => true
    | vStr s, vStr t => s == t
    | _, _ => false

/-- Whether a value may be inserted into a Python set. -/
def hashable : Value → Bool
  | vList _ => false
  | vDict _ => false
  | _ => true

/-- Python iteration (for x in v): lists yield their elements, strings
their one-character substrings, dicts their keys; everything else
raises TypeError. -/
def iterate : Value → Except String (List Value)
  | vList xs => .ok xs
  | vStr s => .ok (s.toList.map (fun c => vStr (String.mk [c])))
  | vDict fs => .ok (fs.map (fun f => vStr f.1))
  | _ => .error "TypeError: not iterable"

/-- One step of Python sum(...): only ints and bools add onto an int
accumulator, all other values raise TypeError. -/
def intAdd (acc : Int) : Value → Except String Int
  | vInt n => .ok (acc + n)
  | vBool b => .ok (acc + (if b then 1 else 0))
  | _ => .error "TypeError: unsupported operand"

end Value

/-- Ordered-list model of a Python set: membership decided by pyEq,
insertion keeps the first occurrence and appends new elements. -/
def setInsert (acc : List Value) (v : Value) : List Value :=
  if acc.any (fun w => Value.pyEq w v) then acc else acc ++ [v]

/-- Python set.add, which raises on unhashable values. -/
def setAdd (acc : List Value) (v : Value) : Except String (List Value) :=
  if v.hashable then .ok (setInsert acc v) else .error "TypeError: unhashable type"

@[simp] theorem exceptBind_ok {α β : Type} (x : α) (f : α → Except String β) :
    (Except.ok x >>= f) = f x := rfl

@[simp] theorem exceptBind_error {α β : Type} (e : String) (f : α → Except String β) :
    ((Except.error e : Except String α) >>= f) = Except.error e := rfl

@[simp] theorem exceptPure_eq_ok {α : Type} (x : α) :
    (pure x : Except String α) = Except.ok x := rfl

/-- Python substring test (needle in haystack). -/
def strContains (hay needle : String) : Bool :=
  hay.data.tails.any (fun t => needle.data.isPrefixOf t)

/-- Module-level configuration read from the environment at startup. -/
structure Config where
  /-- STORAGE_BUCKET -/
  bucket : String
  /-- GIVEBUTTER_API_KEY (absent switches polling to mock data) -/
  apiKey : Option String

/-- External world of one run: outcomes of the HTTP fetch loop, of
storage uploads and downloads, and the clock readings. -/
structure SyncEnv where
  /-- Outcome of the paginated HTTP fetch loop for one endpoint: the
  records accumulated across all pages, or the raised transport error. -/
  fetch : String → Except String (List Value)
  /-- Message of the exception raised by the n-th storage upload of the
  run, if it fails. -/
  writeErr : Nat → Option String
  /-- Whether downloading the named blob raises. -/
  readErr : String → Bool
  /-- strftime('%Y%m%d_%H%M%S') reading taken at the n-th upload. -/
  wts : Nat → String
  /-- datetime.now(timezone.utc).isoformat() -/
  nowIso : String

/-- The module-global mutable state: the GCS bucket contents plus the
sync_status / sync_errors / last_sync_time globals.  A blob whose
content would fail json.loads is stored as none.  fetchCalls and
storeCalls count poll_givebutter_api invocations and upload attempts
(they index the environment oracles and record which steps ran). -/
structure SyncState where
  store : List (String × Option Value)
  status : String
  errors : List String
  lastSync : Option String
  fetchCalls : Nat
  storeCalls : Nat

/-- blob.upload_from_string: overwrites an existing blob of the same
name, otherwise adds a new one. -/
def putBlob : List (String × Option Value) → String → Option Value → List (String × Option Value)
  | [], name, v => [(name, v)]
  | (k, w) :: rest, name, v =>
    if k = name then (name, v) :: rest else (k, w) :: putBlob rest name v

/-- The timestamped blob name built in store_data_in_gcs:
givebutter-data/{integration_id}/{data_type}/{timestamp}.json. -/
def blobName (integrationId dataType ts : String) : String :=
  "givebutter-data/" ++ integrationId ++ "/" ++ dataType ++ "/" ++ ts ++ ".json"

/-- store_data_in_gcs (every call site passes the default
integration_id "givebutter").  On upload failure the error is logged
and re-raised. -/
def store_data_in_gcs (env : SyncEnv) (dataType : String) (data : Value)
    (s : SyncState) : SyncState × Except String Unit :=
  let n := s.storeCalls
  let name := blobName "givebutter" dataType (env.wts n)
  let s1 := { s with storeCalls := n + 1 }
  match env.writeErr n with
  | some e => (s1, .error e)
  | none => ({ s1 with store := putBlob s1.store name (some data) }, .ok ())

/-- Python max(blobs, key=lambda b: b.name): a left fold that keeps the
first maximum.  Python compares strings lexicographically by code
point, modelled as the lexicographic order on the character lists. -/
def pyMaxEntry (b : String × Option Value) (bs : List (String × Option Value)) :
    String × Option Value :=
  bs.foldl (fun cur x => if cur.1.data < x.1.data then x else cur) b

/-- Fixed canonical blob name of the production read path. -/
def prodBlobName (dataType : String) : String :=
  "donor-sync/production/" ++ dataType ++ "_data.json"

/-- int(x * 100) in the production-summary translation (the stored
total_amount is a number in the cases this path handles; any other
shape raises and the caller returns none). -/
def timesHundredInt (v : Value) : Except String Int :=
  match v.toNum? with
  | some q => .ok ((q * 100).num.tdiv ((q * 100).den : Int))
  | none => .error "TypeError: unsupported operand"

/-- The wlmn-donor-data translation of the canonical summary blob. -/
def translateProdSummary (d : Value) : Except String Value := do
  let td ← d.pyGet "total_donors" (.vInt 0)
  let tt ← d.pyGet "total_donations" (.vInt 0)
  let ta ← d.pyGet "total_amount" (.vInt 0)
  let cents ← timesHundredInt ta
  let rec_ ← d.pyGet "recurring_donors" (.vInt 0)
  let ls ← d.pyGet "last_sync" .vNull
  let ss ← d.pyGet "sync_status" (.vStr "success")
  pure (Value.vDict [("total_donors", td), ("total_transactions", tt),
    ("total_amount_cents", .vInt cents), ("total_amount_dollars", ta),
    ("active_recurring_plans", rec_), ("last_updated", ls), ("sync_status", ss)])

/-- The wlmn-donor-data translation of the canonical contacts or
transactions blob: unwrap the named array and re-wrap it as an
envelope. -/
def translateProdArray (field : String) (d : Value) : Except String Value := do
  let c ← d.pyGet field (.vList [])
  match c with
  | .vList _ => pure (.vDict [("data", c)])
  | _ => pure c

/-- Membership of a blob in a collection type's timestamped namespace
(the prefix filter of list_blobs). -/
def inNamespace (dataType : String) (b : String × Option Value) : Bool :=
  ("givebutter-data/givebutter/" ++ dataType ++ "/").data.isPrefixOf b.1.data

/-- The standard (timestamped-namespace) read path of
get_latest_data_from_gcs: list blobs under the type's namespace, take
the lexicographically maximal name, return its parsed content; any
failure yields none. -/
def getLatestStandard (env : SyncEnv) (dataType : String)
    (store : List (String × Option Value)) : Option Value :=
  match store.filter (inNamespace dataType) with
  | [] => none
  | b :: bs =>
    if env.readErr (pyMaxEntry b bs).1 then none
    else (pyMaxEntry b bs).2

/-- get_latest_data_from_gcs (every call site passes the default
integration_id "givebutter").  All exceptions are caught and turned
into none. -/
def get_latest_data_from_gcs (cfg : Config) (env : SyncEnv) (s : SyncState)
    (dataType : String) : Option Value :=
  if cfg.bucket = "wlmn-donor-data" ∧
      (dataType = "summary" ∨ dataType = "contacts" ∨ dataType = "transactions") then
    match lookupKey s.store (prodBlobName dataType) with
    | none => none
    | some content =>
      if env.readErr (prodBlobName dataType) then none
      else
        match content with
        | none => none
        | some d =>
          if dataType = "summary" then
            match translateProdSummary d with
            | .ok v => some v
            | .error _ => none
          else if dataType = "contacts" then
            match translateProdArray "contacts" d with
            | .ok v => some v
            | .error _ => none
          else
            match translateProdArray "transactions" d with
            | .ok v => some v
            | .error _ => none
  else
    getLatestStandard env dataType s.store

/-- Zero-padding of the f-string format {i:03d}. -/
def pad3 (n : Nat) : String :=
  if n < 10 then "00" ++ toString n
  else if n < 100 then "0" ++ toString n
  else toString n

/-- One synthetic contact record of generate_mock_data. -/
def mockContact (now : String) (i : Nat) : Value :=
  .vDict [("id", .vStr ("contact_" ++ toString (i + 1))),
    ("first_name", .vStr "Donor"),
    ("last_name", .vStr (toString (i + 1))),
    ("email", .vStr ("donor" ++ toString (i + 1) ++ "@example.com")),
    ("phone", .vStr ("+1234567" ++ pad3 i)),
    ("total_donated", .vInt ((i + 1 : Nat) * 5000)),
    ("donation_count", .vInt ((i % 5 : Nat) + 1)),
    ("created_at", .vStr now)]

/-- The 168 synthetic contacts. -/
def mockContacts (now : String) : List Value :=
  (List.range 168).map (mockContact now)

/-- One synthetic transaction record of generate_mock_data. -/
def mockTransaction (now : String) (i : Nat) : Value :=
  .vDict [("id", .vStr ("txn_" ++ toString i)),
    ("amount", .vInt 10000),
    ("fee", .vInt 329),
    ("net_amount", .vInt 9671),
    ("status", .vStr "succeeded"),
    ("method", .vStr "card"),
    ("contact_id", .vStr ("contact_" ++ toString ((i % 168) + 1))),
    ("campaign_id", .vStr "campaign_main"),
    ("created_at", .vStr now)]

/-- The 186 synthetic transactions. -/
def mockTransactions (now : String) : List Value :=
  (List.range 186).map (mockTransaction now)

/-- One synthetic recurring plan of generate_mock_data. -/
def mockPlan (now : String) (i : Nat) : Value :=
  .vDict [("id", .vStr ("plan_" ++ toString (i + 1))),
    ("amount", .vInt 2500),
    ("interval", .vStr "monthly"),
    ("status", .vStr "active"),
    ("contact_id", .vStr ("contact_" ++ toString (i + 1))),
    ("created_at", .vStr now)]

/-- The 78 synthetic active plans. -/
def mockPlans (now : String) : List Value :=
  (List.range 78).map (mockPlan now)

/-- The single synthetic campaign. -/
def mockCampaigns (now : String) : List Value :=
  [.vDict [("id", .vStr "campaign_main"),
    ("title", .vStr "WLMN Annual Fundraiser"),
    ("goal", .vInt 5000000),
    ("raised", .vInt 1242000),
    ("status", .vStr "active"),
    ("created_at", .vStr now)]]

/-- The response envelope shape shared by live and mock data. -/
def envelope (data : List Value) (meta : Value) : Value :=
  .vDict [("data", .vList data), ("meta", meta)]

/-- generate_mock_data: deterministic synthetic dataset per endpoint
(dispatch is by substring containment, as in the source). -/
def generate_mock_data (now : String) (endpoint : String) : Value :=
  if strContains endpoint "contacts" then
    envelope (mockContacts now)
      (.vDict [("total", .vInt 168), ("page", .vInt 1), ("per_page", .vInt 168)])
  else if strContains endpoint "transactions" then
    envelope (mockTransactions now)
      (.vDict [("total", .vInt 186), ("page", .vInt 1), ("per_page", .vInt 186)])
  else if strContains endpoint "plans" then
    envelope (mockPlans now)
      (.vDict [("total", .vInt 78), ("page", .vInt 1), ("per_page", .vInt 100)])
  else if strContains endpoint "campaigns" then
    envelope (mockCampaigns now)
      (.vDict [("total", .vInt 1), ("page", .vInt 1), ("per_page", .vInt 100)])
  else
    envelope [] (.vDict [("total", .vInt 0), ("page", .vInt 1), ("per_page", .vInt 100)])

/-- poll_givebutter_api: without a configured key, fall back to mock
data (warning only); with a key, return the accumulated pages as one
envelope, or — when the fetch loop raises — log, append one structured
error entry to sync_errors and substitute mock data. -/
def poll_givebutter_api (cfg : Config) (env : SyncEnv) (endpoint : String)
    (s : SyncState) : SyncState × Value :=
  let s0 := { s with fetchCalls := s.fetchCalls + 1 }
  match cfg.apiKey with
  | none => (s0, generate_mock_data env.nowIso endpoint)
  | some _ =>
    match env.fetch endpoint with
    | .ok allData =>
      (s0, .vDict [("data", .vList allData),
        ("meta", .vDict [("total", .vInt allData.length), ("page", .vInt 1),
          ("per_page", .vInt allData.length)])])
    | .error e =>
      ({ s0 with errors := s0.errors ++ ["API Error (" ++ endpoint ++ "): " ++ e] },
        generate_mock_data env.nowIso endpoint)

/-- The donor-id accumulation loops of generate_donor_summary: add the
named field of each record to the set when truthy. -/
def collectIds (field : String) : List Value → List Value → Except String (List Value)
  | [], acc => .ok acc
  | r :: rest, acc => do
    let v ← r.pyGet field .vNull
    if v.truthy then
      let acc' ← setAdd acc v
      collectIds field rest acc'
    else
      collectIds field rest acc

/-- sum(rec.get('amount', 0) for rec in l) over an int accumulator. -/
def sumAmountField : List Value → Int → Except String Int
  | [], acc => .ok acc
  | t :: rest, acc => do
    let a ← t.pyGet "amount" (.vInt 0)
    let acc' ← Value.intAdd acc a
    sumAmountField rest acc'

/-- len([p for p in plans if p.get('status') == 'active']). -/
def countActive : List Value → Except String Nat
  | [] => .ok 0
  | p :: rest => do
    let st ← p.pyGet "status" .vNull
    let n ← countActive rest
    .ok ((if Value.pyEq st (.vStr "active") then 1 else 0) + n)

/-- The extraction x.get('data', []) if x else [] applied to each
latest snapshot. -/
def envelopeData (x : Option Value) : Except String Value :=
  match x with
  | none => .ok (.vList [])
  | some v => if v.truthy then v.pyGet "data" (.vList []) else .ok (.vList [])

/-- The dollars field of the summary:
total_amount / 100 if total_amount > 0 else 0 (true division). -/
def dollarsValue (totalAmount : Int) : Value :=
  if totalAmount > 0 then .vRat ((totalAmount : ℚ) / 100) else .vInt 0

/-- The summary dict built by generate_donor_summary. -/
def summaryValue (totalDonors totalTransactions : Nat) (totalAmount : Int)
    (activePlans : Nat) (env : SyncEnv) (s : SyncState) : Value :=
  .vDict [("total_donors", .vInt totalDonors),
    ("total_transactions", .vInt totalTransactions),
    ("total_amount_cents", .vInt totalAmount),
    ("total_amount_dollars", dollarsValue totalAmount),
    ("active_recurring_plans", .vInt activePlans),
    ("last_updated", .vStr env.nowIso),
    ("sync_status", .vStr s.status),
    ("sync_errors", if s.errors.isEmpty then .vNull else .vList (s.errors.map Value.vStr))]

/-- The try-block of generate_donor_summary, through the summary
upload; the returned Option String is the exception escaping it. -/
def generateSummaryBody (cfg : Config) (env : SyncEnv) (s : SyncState) :
    SyncState × Option String :=
  let contactsData := get_latest_data_from_gcs cfg env s "contacts"
  let transactionsData := get_latest_data_from_gcs cfg env s "transactions"
  let plansData := get_latest_data_from_gcs cfg env s "plans"
  let _campaignsData := get_latest_data_from_gcs cfg env s "campaigns"
  match (do
    let contactsV ← envelopeData contactsData
    let transactionsV ← envelopeData transactionsData
    let plansV ← envelopeData plansData
    let contacts ← contactsV.iterate
    let ids1 ← collectIds "id" contacts []
    let transactions ← transactionsV.iterate
    let ids2 ← collectIds "contact_id" transactions ids1
    let totalAmount ← sumAmountField transactions 0
    let plans ← plansV.iterate
    let active ← countActive plans
    pure (summaryValue ids2.length transactions.length totalAmount active env s)
    : Except String Value) with
  | .error e => (s, some e)
  | .ok sv =>
    match store_data_in_gcs env "summary" sv s with
    | (s1, .ok _) => (s1, none)
    | (s1, .error e) => (s1, some e)

/-- generate_donor_summary: every exception of the body is caught,
logged, and appended to sync_errors; nothing is re-raised. -/
def generate_donor_summary (cfg : Config) (env : SyncEnv) (s : SyncState) : SyncState :=
  match generateSummaryBody cfg env s with
  | (s1, none) => s1
  | (s1, some e) => { s1 with errors := s1.errors ++ ["Summary Generation Error: " ++ e] }

/-- One fetch-and-store step of the sync loop. -/
def syncStep (cfg : Config) (env : SyncEnv) (dataType : String)
    (s : SyncState) : SyncState × Except String Unit :=
  let (s1, data) := poll_givebutter_api cfg env dataType s
  store_data_in_gcs env dataType data s1

/-- The sequential for data_type in data_types loop; the first raising
step aborts the remainder. -/
def syncLoop (cfg : Config) (env : SyncEnv) :
    List String → SyncState → SyncState × Except String Unit
  | [], s => (s, .ok ())
  | dt :: rest, s =>
    match syncStep cfg env dt s with
    | (s1, .ok _) => syncLoop cfg env rest s1
    | (s1, .error e) => (s1, .error e)

/-- The four collection types synced in order. -/
def dataTypes : List String := ["contacts", "transactions", "plans", "campaigns"]

/-- sync_all_data: guarded single-flight entry, the four fetch-and-store
steps, summary generation, and the completed / failed transition; a
loop failure is recorded and re-raised. -/
def sync_all_data (cfg : Config) (env : SyncEnv) (s : SyncState) :
    SyncState × Except String Unit :=
  if s.status = "syncing" then (s, .ok ())
  else
    let s1 := { s with status := "syncing", errors := [] }
    match syncLoop cfg env dataTypes s1 with
    | (s2, .error e) =>
      ({ s2 with status := "failed", errors := s2.errors ++ ["Sync Error: " ++ e] }, .error e)
    | (s2, .ok _) =>
      let s3 := generate_donor_summary cfg env s2
      ({ s3 with lastSync := some env.nowIso, status := "completed" }, .ok ())

/-- The atomic guard-and-transition section at the top of
sync_all_data (lines 335-340; there is no await point inside it, so
concurrent triggers — scheduler, startup, manual — execute it
sequentially).  The boolean reports whether this trigger performed the
transition to syncing. -/
def syncEntry (s : SyncState) : SyncState × Bool :=
  if s.status = "syncing" then (s, false)
  else ({ s with status := "syncing", errors := [] }, true)

/-- n triggers executing the guarded entry in sequence, counting how
many of them performed the transition to syncing. -/
def runTriggers : Nat → SyncState → SyncState × Nat
  | 0, s => (s, 0)
  | n + 1, s =>
    let (s1, b) := syncEntry s
    let (s2, c) := runTriggers n s1
    (s2, (if b then 1 else 0) + c)

/-- Grouping-dict insertion: append the record to the key's list,
creating the key at the end on first sight (Python dict key order). -/
def addGroup (m : List (String × List Value)) (k : String) (p : Value) :
    List (String × List Value) :=
  match m with
  | [] => [(k, [p])]
  | (k', l) :: rest =>
    if k' = k then (k', l ++ [p]) :: rest else (k', l) :: addGroup rest k p

/-- active_plans_by_contact: plans with status == 'active' and a truthy
contact_id, grouped by str(contact_id) in fetch order. -/
def buildActivePlans : List Value → List (String × List Value) →
    Except String (List (String × List Value))
  | [], m => .ok m
  | p :: rest, m => do
    let st ← p.pyGet "status" .vNull
    if Value.pyEq st (.vStr "active") then
      let cid ← p.pyGet "contact_id" .vNull
      if cid.truthy then
        buildActivePlans rest (addGroup m (Value.pyStr cid) p)
      else
        buildActivePlans rest m
    else
      buildActivePlans rest m

/-- contact_transactions: transactions grouped by str(txn.get('contact_id')).
The str() is taken before the truthiness test, so only an empty-string
key is skipped (a missing contact_id groups under "None"). -/
def buildTxnGroups : List Value → List (String × List Value) →
    Except String (List (String × List Value))
  | [], m => .ok m
  | t :: rest, m => do
    let cid ← t.pyGet "contact_id" .vNull
    let key := Value.pyStr cid
    if key ≠ "" then
      buildTxnGroups rest (addGroup m key t)
    else
      buildTxnGroups rest m

/-- The f-string display name with its Anonymous fallback. -/
def displayName (fn ln : Value) : String :=
  let s := (Value.pyStr fn ++ " " ++ Value.pyStr ln).trim
  if s = "" then "Anonymous" else s

/-- Enrichment of one contact with its transaction and plan stats
(lines 508-536). -/
def enrichOne (txnGroups plansGroups : List (String × List Value))
    (c : Value) : Except String Value := do
  let cidv ← c.pyGet "id" .vNull
  let cid := Value.pyStr cidv
  let ctxns := (lookupKey txnGroups cid).getD []
  let cplans := (lookupKey plansGroups cid).getD []
  let totalAmount ← sumAmountField ctxns 0
  let recurringAmount ← sumAmountField cplans 0
  let isRecurring := decide (0 < cplans.length)
  let fn ← c.pyGet "first_name" (.vStr "")
  let ln ← c.pyGet "last_name" (.vStr "")
  let email ← c.pyGet "email" .vNull
  let phone ← c.pyGet "phone" .vNull
  let createdAt ← c.pyGet "created_at" .vNull
  let freq ← match cplans with
    | [] => pure Value.vNull
    | p :: _ => p.pyGet "interval" (.vStr "monthly")
  pure (.vDict [("id", .vStr cid),
    ("name", .vStr (displayName fn ln)),
    ("email", email),
    ("phone", phone),
    ("created_at", createdAt),
    ("isRecurring", .vBool isRecurring),
    ("recurringFrequency", if isRecurring then freq else Value.vNull),
    ("stats", .vDict [("total_contributions", .vInt totalAmount),
      ("recurring_contributions", .vInt recurringAmount),
      ("contribution_count", .vInt ctxns.length),
      ("active_plans", .vInt cplans.length),
      ("is_recurring", .vBool isRecurring)])])

/-- The enriched_contacts accumulation loop (append per contact, in
order). -/
def enrichLoop (txnGroups plansGroups : List (String × List Value)) :
    List Value → Except String (List Value)
  | [] => .ok []
  | c :: rest => do
    let e ← enrichOne txnGroups plansGroups c
    let es ← enrichLoop txnGroups plansGroups rest
    pure (e :: es)

/-- Lines 484-536 of get_donor_data: given the truthy contacts
snapshot and the optional transactions and plans snapshots, produce the
enriched contact list. -/
def enrichFromStore (cv : Value) (transactionsData plansData : Option Value) :
    Except String (List Value) := do
  let contactsV ← cv.pyGet "data" (.vList [])
  let transactionsV ← envelopeData transactionsData
  let plansV ← envelopeData plansData
  let contacts ← contactsV.iterate
  let transactions ← transactionsV.iterate
  let plans ← plansV.iterate
  let plansGroups ← buildActivePlans plans []
  let txnGroups ← buildTxnGroups transactions []
  enrichLoop txnGroups plansGroups contacts

/-- The enriched donor list the donor-data query paginates: empty when
the contacts snapshot is absent or falsy, otherwise the enrichment of
the latest snapshots. -/
def donorListOf (cfg : Config) (env : SyncEnv) (s : SyncState) :
    Except String (List Value) :=
  let contactsData := get_latest_data_from_gcs cfg env s "contacts"
  let transactionsData := get_latest_data_from_gcs cfg env s "transactions"
  let plansData := get_latest_data_from_gcs cfg env s "plans"
  match contactsData with
  | none => .ok []
  | some cv =>
    if cv.truthy then enrichFromStore cv transactionsData plansData
    else .ok []

/-- Python // on ints: floor division, raising on a zero divisor. -/
def pyFloorDiv (a b : Int) : Except String Int :=
  if b = 0 then .error "ZeroDivisionError: integer division or modulo by zero"
  else .ok (Int.fdiv a b)

/-- Python list slicing l[a:b] (negative indices count from the end,
out-of-range indices clamp). -/
def pySlice (l : List Value) (a b : Int) : List Value :=
  let n : Int := l.length
  let a' := if a < 0 then max (n + a) 0 else min a n
  let b' := if b < 0 then max (n + b) 0 else min b n
  (l.take b'.toNat).drop a'.toNat

/-- The JSON body of a donor-wall data response (the constant success
and timestamp fields are omitted). -/
structure DonorWallPage where
  data : List Value
  total : Int
  page : Int
  perPage : Int
  hasMore : Bool

/-- The empty page returned when no contacts snapshot exists; the page
index still performs offset // limit + 1. -/
def emptyDonorPage (limit offset : Int) : Except String DonorWallPage := do
  let p ← pyFloorDiv offset limit
  pure ⟨[], 0, p + 1, limit, false⟩

/-- get_donor_data endpoint (lines 458-556): read the latest snapshots,
enrich, slice [offset, offset+limit), and report pagination metadata.
A raised exception becomes an HTTP 500, modelled as the error case. -/
def get_donor_data (cfg : Config) (env : SyncEnv) (s : SyncState)
    (limit offset : Int) : Except String DonorWallPage :=
  let contactsData := get_latest_data_from_gcs cfg env s "contacts"
  let transactionsData := get_latest_data_from_gcs cfg env s "transactions"
  let plansData := get_latest_data_from_gcs cfg env s "plans"
  match contactsData with
  | none => emptyDonorPage limit offset
  | some cv =>
    if cv.truthy then do
      let enriched ← enrichFromStore cv transactionsData plansData
      let total : Int := enriched.length
      let paginated := pySlice enriched offset (offset + limit)
      let p ← pyFloorDiv offset limit
      pure ⟨paginated, total, p + 1, limit, decide (offset + limit < total)⟩
    else emptyDonorPage limit offset

/-- The donor-count fragment of generate_donor_summary: the two
accumulation loops followed by len(donor_ids). -/
def donorCountCode (contacts transactions : List Value) : Except String Nat := do
  let ids1 ← collectIds "id" contacts []
  let ids2 ← collectIds "contact_id" transactions ids1
  pure ids2.length

/-- Fuelled worker for pyNub (the fuel keeps the recursion structural;
it is always called with fuel at least the list length). -/
def pyNubF : Nat → List Value → List Value
  | _, [] => []
  | 0, _ :: _ => []
  | n + 1, v :: rest => v :: pyNubF n (rest.filter (fun w => !Value.pyEq v w))

/-- Distinct values of a list under pyEq, keeping first occurrences. -/
def pyNub (l : List Value) : List Value :=
  pyNubF l.length l

theorem pyNubF_congr : ∀ (n m : Nat) (l : List Value), l.length ≤ n → l.length ≤ m →
    pyNubF n l = pyNubF m l := by
  intro n
  induction n with
  | zero =>
    intro m l hn _
    cases l with
    | nil => cases m <;> rfl
    | cons v rest => simp at hn
  | succ n ih =>
    intro m l hn hm
    cases l with
    | nil => cases m <;> rfl
    | cons v rest =>
      cases m with
      | zero => simp at hm
      | succ m =>
        simp only [pyNubF]
        have hf : (rest.filter (fun w => !Value.pyEq v w)).length ≤ rest.length :=
          List.length_filter_le _ _
        simp only [List.length_cons, Nat.succ_le_succ_iff] at hn hm
        exact congrArg _ (ih m _ (le_trans hf hn) (le_trans hf hm))

@[simp] theorem pyNub_nil : pyNub [] = [] := rfl

theorem pyNub_cons (v : Value) (rest : List Value) :
    pyNub (v :: rest) = v :: pyNub (rest.filter (fun w => !Value.pyEq v w)) := by
  show pyNubF (rest.length + 1) (v :: rest) = _
  simp only [pyNubF, pyNub]
  exact congrArg _ (pyNubF_congr _ _ _ (List.length_filter_le _ _) le_rfl)

/-- The present values of a field across a record list, restricted to
the truthy ones (exactly the values the summary loops insert). -/
def fieldVals (field : String) (l : List Value) : List Value :=
  (l.filterMap (fun r => r.get? field)).filter Value.truthy

/-- Stated from the words of claim C4: the size of the union of all
Contact ids and all Transaction contact_id values, string-normalized. -/
def donorCountNormalized (contacts transactions : List Value) : Nat :=
  (pyNub (((contacts.filterMap (fun c => c.get? "id")) ++
    (transactions.filterMap (fun t => t.get? "contact_id"))).map
      (fun v => Value.vStr (Value.pyStr v)))).length

/-- Amended union for C4: the truthy id values, compared by Python
equality without string normalization. -/
def donorCountRaw (contacts transactions : List Value) : Nat :=
  (pyNub (fieldVals "id" contacts ++ fieldVals "contact_id" transactions)).length

/-- Stated from the words of claims C4 and C9: a plan counts for a
contact when its status is active, its contact_id is truthy and its
string form names the contact. -/
def planMatches (key : String) (p : Value) : Bool :=
  Value.pyEq (p.getf "status") (.vStr "active") && (p.getf "contact_id").truthy &&
    (Value.pyStr (p.getf "contact_id") == key)

/-- Stated from the words of claim C9: the recurring frequency is the
interval field of the first active plan of the contact in fetch order
(null when that field is absent), and null when no active plan exists. -/
def specFreq (c : Value) (plans : List Value) : Value :=
  match (plans.filter (planMatches (Value.pyStr (c.getf "id")))).head? with
  | none => Value.vNull
  | some p => (p.get? "interval").getD Value.vNull

/-- Amended frequency for C9: as specFreq, except that a first active
plan without an interval field yields the literal "monthly". -/
def amendedSpecFreq (c : Value) (plans : List Value) : Value :=
  match (plans.filter (planMatches (Value.pyStr (c.getf "id")))).head? with
  | none => Value.vNull
  | some p => (p.get? "interval").getD (Value.vStr "monthly")

/-- Stated from the words of claim C8: the dollar value is the final
cents total divided by one hundred. -/
def specDollars (totalAmount : Int) : ℚ :=
  (totalAmount : ℚ) / 100

/-- A transaction record carrying just an integer amount. -/
def amountTxn (a : Int) : Value :=
  .vDict [("amount", .vInt a)]

/-- The C4 fixture: 3 contacts and 5 transactions, 2 of which reference
an unknown 4th contact. -/
def fixtureContacts : List Value :=
  [.vDict [("id", .vStr "c1")], .vDict [("id", .vStr "c2")], .vDict [("id", .vStr "c3")]]

/-- Transactions of the C4 fixture. -/
def fixtureTransactions : List Value :=
  [.vDict [("id", .vStr "t1"), ("contact_id", .vStr "c1")],
   .vDict [("id", .vStr "t2"), ("contact_id", .vStr "c2")],
   .vDict [("id", .vStr "t3"), ("contact_id", .vStr "c3")],
   .vDict [("id", .vStr "t4"), ("contact_id", .vStr "c4")],
   .vDict [("id", .vStr "t5"), ("contact_id", .vStr "c4")]]

example : donorCountCode fixtureContacts fixtureTransactions = .ok 4 := rfl
example : donorCountRaw fixtureContacts fixtureTransactions = 4 := by decide
example : donorCountCode [.vDict [("id", .vInt 1)]] [.vDict [("contact_id", .vStr "1")]] = .ok 2 :=
  rfl
example : donorCountNormalized [.vDict [("id", .vInt 1)]] [.vDict [("contact_id", .vStr "1")]] = 1 := by
  decide
/-! ### Shared concrete instances used by witnesses -/

/-- A development configuration (standard bucket, no API key). -/
def baseCfg : Config :=
  ⟨"wlmn-site-main-assets", none⟩

/-- A configuration with an API key set. -/
def keyedCfg : Config :=
  ⟨"wlmn-site-main-assets", some "gb_key"⟩

/-- A benign environment: fetches return no records, uploads and
downloads succeed, the clock is constant. -/
def baseEnv : SyncEnv :=
  ⟨fun _ => .ok [], fun _ => none, fun _ => false,
   fun _ => "20250101_000000", "2025-01-01T00:00:00+00:00"⟩

/-- The initial idle state with an empty bucket. -/
def idleState : SyncState :=
  ⟨[], "idle", [], none, 0, 0⟩

/-- An in-flight state (mid-sync). -/
def syncingState : SyncState :=
  ⟨[("givebutter-data/givebutter/contacts/20240101_000000.json", some (.vDict [("data", .vList [])]))],
   "syncing", ["old error"], some "2024-01-01T00:00:00+00:00", 3, 3⟩

/-! ### C1: single-flight sync guard -/

theorem runTriggers_of_syncing : ∀ (n : Nat) (s : SyncState), s.status = "syncing" →
    runTriggers n s = (s, 0) := by
  intro n
  induction n with
  | zero => intro s _; rfl
  | succ n ih =>
    intro s h
    simp [runTriggers, syncEntry, h, ih s h]

/-- C1: a trigger arriving while the status is "syncing" is a complete
no-op on the sync state (status, error list and stored snapshots all
unchanged, normal return), and of n+1 sequential guarded triggers
starting outside "syncing" exactly the first performs the transition to
"syncing". -/
theorem c1_single_flight_guard (cfg : Config) (env : SyncEnv) (s : SyncState) (n : Nat) :
    (s.status = "syncing" → sync_all_data cfg env s = (s, .ok ())) ∧
    (s.status ≠ "syncing" →
      (runTriggers (n + 1) s).2 = 1 ∧ (runTriggers (n + 1) s).1.status = "syncing") := by
  constructor
  · intro h
    simp [sync_all_data, h]
  · intro h
    have hrest := runTriggers_of_syncing n { s with status := "syncing", errors := [] } rfl
    simp [runTriggers, syncEntry, h, hrest]

/-- Witness for C1 at concrete states: a syncing-state trigger returns
the state untouched, and four concurrent triggers from idle collapse to
one transition. -/
theorem c1_single_flight_guard_witness :
    sync_all_data baseCfg baseEnv syncingState = (syncingState, .ok ()) ∧
    (runTriggers 4 idleState).2 = 1 := by
  refine ⟨(c1_single_flight_guard baseCfg baseEnv syncingState 0).1 rfl, ?_⟩
  exact ((c1_single_flight_guard baseCfg baseEnv idleState 3).2 (by decide)).1

/-! ### C3: snapshot keys and overwrites -/

theorem blobName_ts_inj (iid dt ts1 ts2 : String) (h : ts1 ≠ ts2) :
    blobName iid dt ts1 ≠ blobName iid dt ts2 := by
  intro he
  apply h
  have hd := congrArg String.data he
  simp only [blobName, String.data_append] at hd
  exact String.ext (List.append_cancel_left (List.append_cancel_right hd))

theorem lookupKey_putBlob_self (st : List (String × Option Value)) (name : String)
    (v : Option Value) : lookupKey (putBlob st name v) name = some v := by
  induction st with
  | nil => simp [putBlob, lookupKey]
  | cons hd tl ih =>
    obtain ⟨k', w⟩ := hd
    by_cases hk : k' = name
    · simp [putBlob, hk, lookupKey]
    · simp [putBlob, hk, lookupKey, ih]

theorem lookupKey_putBlob_ne (st : List (String × Option Value)) (name k : String)
    (v : Option Value) (h : k ≠ name) :
    lookupKey (putBlob st name v) k = lookupKey st k := by
  induction st with
  | nil => simp [putBlob, lookupKey, Ne.symm h]
  | cons hd tl ih =>
    obtain ⟨k', w⟩ := hd
    by_cases hk : k' = name
    · subst hk
      simp [putBlob, lookupKey, Ne.symm h]
    · by_cases hq : k' = k
      · simp [putBlob, hk, lookupKey, hq, h]
      · simp [putBlob, hk, lookupKey, hq, ih]

/-- C3 counterexample: two writes of distinct payloads to the same
collection type and namespace within the same strftime second generate
the SAME storage key, and the second write leaves the bucket holding
only the second payload — the first snapshot is gone. -/
theorem c3_counterexample_same_second_overwrites :
    (store_data_in_gcs baseEnv "contacts" (.vInt 2)
      (store_data_in_gcs baseEnv "contacts" (.vInt 1) idleState).1).1.store =
      [("givebutter-data/givebutter/contacts/20250101_000000.json", some (.vInt 2))] ∧
    blobName "givebutter" "contacts" (baseEnv.wts idleState.storeCalls) =
      blobName "givebutter" "contacts" (baseEnv.wts (idleState.storeCalls + 1)) ∧
    Value.vInt 2 ≠ Value.vInt 1 := by
  refine ⟨rfl, rfl, ?_⟩
  simp

/-- C3 amended: two successful snapshot writes whose strftime
timestamps differ generate distinct storage keys, and after the second
write both payloads are present unmodified under their keys (the
timestamp has second granularity, so writes within the same second
reuse the key and overwrite). -/
theorem c3_amended_distinct_timestamps_preserve (env : SyncEnv) (s : SyncState)
    (dt : String) (v1 v2 : Value)
    (h1 : env.writeErr s.storeCalls = none)
    (h2 : env.writeErr (s.storeCalls + 1) = none)
    (hts : env.wts s.storeCalls ≠ env.wts (s.storeCalls + 1)) :
    blobName "givebutter" dt (env.wts s.storeCalls) ≠
      blobName "givebutter" dt (env.wts (s.storeCalls + 1)) ∧
    (store_data_in_gcs env dt v2 (store_data_in_gcs env dt v1 s).1).2 = .ok () ∧
    lookupKey (store_data_in_gcs env dt v2 (store_data_in_gcs env dt v1 s).1).1.store
      (blobName "givebutter" dt (env.wts s.storeCalls)) = some (some v1) ∧
    lookupKey (store_data_in_gcs env dt v2 (store_data_in_gcs env dt v1 s).1).1.store
      (blobName "givebutter" dt (env.wts (s.storeCalls + 1))) = some (some v2) := by
  have hinj := blobName_ts_inj "givebutter" dt _ _ hts
  refine ⟨hinj, ?_⟩
  simp only [store_data_in_gcs, h1]
  simp only [store_data_in_gcs, h2]
  refine ⟨trivial, ?_, ?_⟩
  · rw [lookupKey_putBlob_ne _ _ _ _ hinj]
    exact lookupKey_putBlob_self _ _ _
  · exact lookupKey_putBlob_self _ _ _

/-- Witness for the amended C3 at a concrete environment whose clock
advances between the writes. -/
theorem c3_amended_distinct_timestamps_preserve_witness :
    lookupKey (store_data_in_gcs
        ⟨fun _ => .ok [], fun _ => none, fun _ => false, fun n => "20250101_00000" ++ toString n,
          "2025-01-01T00:00:00+00:00"⟩ "contacts" (.vInt 2)
      (store_data_in_gcs
        ⟨fun _ => .ok [], fun _ => none, fun _ => false, fun n => "20250101_00000" ++ toString n,
          "2025-01-01T00:00:00+00:00"⟩ "contacts" (.vInt 1) idleState).1).1.store
      (blobName "givebutter" "contacts" "20250101_000000") = some (some (.vInt 1)) := by
  have h := c3_amended_distinct_timestamps_preserve
    ⟨fun _ => .ok [], fun _ => none, fun _ => false, fun n => "20250101_00000" ++ toString n,
      "2025-01-01T00:00:00+00:00"⟩ idleState "contacts" (.vInt 1) (.vInt 2)
    rfl rfl (by decide)
  exact h.2.2.1

/-! ### C6: a storage write error is fatal to the cycle -/

theorem syncStep_ok_of_writeErr_none (cfg : Config) (env : SyncEnv) (dt : String)
    (s : SyncState) (h : env.writeErr s.storeCalls = none) :
    ∃ s', syncStep cfg env dt s = (s', .ok ()) ∧
      s'.storeCalls = s.storeCalls + 1 ∧ s'.fetchCalls = s.fetchCalls + 1 ∧
      s'.status = s.status ∧ ∃ t, s'.errors = s.errors ++ t := by
  unfold syncStep poll_givebutter_api store_data_in_gcs
  cases hk : cfg.apiKey with
  | none =>
    simp only [h]
    exact ⟨_, rfl, rfl, rfl, rfl, [], (List.append_nil _).symm⟩
  | some k =>
    cases hf : env.fetch dt with
    | ok l =>
      simp only [h]
      exact ⟨_, rfl, rfl, rfl, rfl, [], (List.append_nil _).symm⟩
    | error e =>
      simp only [h]
      exact ⟨_, rfl, rfl, rfl, rfl, _, rfl⟩

theorem syncStep_error_of_writeErr_some (cfg : Config) (env : SyncEnv) (dt : String)
    (s : SyncState) (e : String) (h : env.writeErr s.storeCalls = some e) :
    ∃ s', syncStep cfg env dt s = (s', .error e) ∧
      s'.storeCalls = s.storeCalls + 1 ∧ s'.fetchCalls = s.fetchCalls + 1 ∧
      s'.status = s.status ∧ s'.store = s.store ∧ ∃ t, s'.errors = s.errors ++ t := by
  unfold syncStep poll_givebutter_api store_data_in_gcs
  cases hk : cfg.apiKey with
  | none =>
    simp only [h]
    exact ⟨_, rfl, rfl, rfl, rfl, rfl, [], (List.append_nil _).symm⟩
  | some k =>
    cases hf : env.fetch dt with
    | ok l =>
      simp only [h]
      exact ⟨_, rfl, rfl, rfl, rfl, rfl, [], (List.append_nil _).symm⟩
    | error e' =>
      simp only [h]
      exact ⟨_, rfl, rfl, rfl, rfl, rfl, _, rfl⟩

/-- C6: if the k-th upload of the cycle (k < 4, during the
per-collection fetch-and-store loop) raises while the earlier uploads
succeed, the cycle aborts the remaining steps — exactly k+1 fetches and
k+1 upload attempts happen, not four — the status becomes "failed", the
error message is recorded, and the error is re-raised to the caller. -/
theorem c6_write_error_fatal (cfg : Config) (env : SyncEnv) (s : SyncState)
    (k : Nat) (e : String) (hk : k < 4)
    (hj : ∀ j, j < k → env.writeErr (s.storeCalls + j) = none)
    (he : env.writeErr (s.storeCalls + k) = some e)
    (hs : s.status ≠ "syncing") :
    ∃ s', sync_all_data cfg env s = (s', .error e) ∧ s'.status = "failed" ∧
      ("Sync Error: " ++ e) ∈ s'.errors ∧
      s'.storeCalls = s.storeCalls + (k + 1) ∧
      s'.fetchCalls = s.fetchCalls + (k + 1) := by
  unfold sync_all_data
  rw [if_neg hs]
  set s1 : SyncState := { s with status := "syncing", errors := [] } with hs1
  have hcalls1 : s1.storeCalls = s.storeCalls ∧ s1.fetchCalls = s.fetchCalls := ⟨rfl, rfl⟩
  interval_cases k
  · obtain ⟨s', hstep, hsc, hfc, _, _, _⟩ :=
      syncStep_error_of_writeErr_some cfg env "contacts" s1 e (by simpa using he)
    simp only [dataTypes, syncLoop, hstep]
    refine ⟨_, rfl, rfl, ?_, ?_, ?_⟩
    · simp
    · simpa using hsc
    · simpa using hfc
  · obtain ⟨sa, hstepa, hsca, hfca, _, _⟩ :=
      syncStep_ok_of_writeErr_none cfg env "contacts" s1 (by simpa using hj 0 (by omega))
    obtain ⟨s', hstep, hsc, hfc, _, _, _⟩ :=
      syncStep_error_of_writeErr_some cfg env "transactions" sa e
        (by rw [hsca]; simpa using he)
    simp only [dataTypes, syncLoop, hstepa, hstep]
    refine ⟨_, rfl, rfl, ?_, ?_, ?_⟩
    · simp
    · rw [hsc, hsca]
    · rw [hfc, hfca]
  · obtain ⟨sa, hstepa, hsca, hfca, _, _⟩ :=
      syncStep_ok_of_writeErr_none cfg env "contacts" s1 (by simpa using hj 0 (by omega))
    obtain ⟨sb, hstepb, hscb, hfcb, _, _⟩ :=
      syncStep_ok_of_writeErr_none cfg env "transactions" sa
        (by rw [hsca]; simpa using hj 1 (by omega))
    obtain ⟨s', hstep, hsc, hfc, _, _, _⟩ :=
      syncStep_error_of_writeErr_some cfg env "plans" sb e
        (by rw [hscb, hsca]; simpa using he)
    simp only [dataTypes, syncLoop, hstepa, hstepb, hstep]
    refine ⟨_, rfl, rfl, ?_, ?_, ?_⟩
    · simp
    · rw [hsc, hscb, hsca]
    · rw [hfc, hfcb, hfca]
  · obtain ⟨sa, hstepa, hsca, hfca, _, _⟩ :=
      syncStep_ok_of_writeErr_none cfg env "contacts" s1 (by simpa using hj 0 (by omega))
    obtain ⟨sb, hstepb, hscb, hfcb, _, _⟩ :=
      syncStep_ok_of_writeErr_none cfg env "transactions" sa
        (by rw [hsca]; simpa using hj 1 (by omega))
    obtain ⟨sc, hstepc, hscc, hfcc, _, _⟩ :=
      syncStep_ok_of_writeErr_none cfg env "plans" sb
        (by rw [hscb, hsca]; simpa using hj 2 (by omega))
    obtain ⟨s', hstep, hsc, hfc, _, _, _⟩ :=
      syncStep_error_of_writeErr_some cfg env "campaigns" sc e
        (by rw [hscc, hscb, hsca]; simpa using he)
    simp only [dataTypes, syncLoop, hstepa, hstepb, hstepc, hstep]
    refine ⟨_, rfl, rfl, ?_, ?_, ?_⟩
    · simp
    · rw [hsc, hscc, hscb, hsca]
    · rw [hfc, hfcc, hfcb, hfca]

/-- Witness for C6: with an environment whose second upload raises
"disk full", a sync from idle fails after exactly two fetches and two
upload attempts, with the error recorded and re-raised. -/
theorem c6_write_error_fatal_witness :
    ∃ s', sync_all_data baseCfg
        ⟨fun _ => .ok [], fun n => if n = 1 then some "disk full" else none,
         fun _ => false, fun _ => "20250101_000000", "2025-01-01T00:00:00+00:00"⟩
        idleState = (s', .error "disk full") ∧
      s'.status = "failed" ∧ ("Sync Error: " ++ "disk full") ∈ s'.errors ∧
      s'.storeCalls = 0 + (1 + 1) ∧ s'.fetchCalls = 0 + (1 + 1) := by
  exact c6_write_error_fatal baseCfg
    ⟨fun _ => .ok [], fun n => if n = 1 then some "disk full" else none,
     fun _ => false, fun _ => "20250101_000000", "2025-01-01T00:00:00+00:00"⟩
    idleState 1 "disk full" (by omega)
    (fun j hj => by interval_cases j; rfl) rfl (by decide)

/-! ### C7: transport errors fall back to self-consistent mock data -/

/-- An environment whose every fetch raises a transport error. -/
def failFetchEnv : SyncEnv :=
  ⟨fun _ => .error "ConnectTimeout", fun _ => none, fun _ => false,
   fun _ => "20250101_000000", "2025-01-01T00:00:00+00:00"⟩

/-- C7: when the configured fetch of a collection raises a transport
error, poll_givebutter_api does not propagate it: it appends exactly
one structured error entry naming that collection to the sync error
list and returns the synthetic dataset; the synthetic transactions and
plans only reference ids of synthetic contacts, and each of the four
collections gets the live envelope shape. -/
theorem c7_fetch_error_mock_fallback (cfg : Config) (env : SyncEnv)
    (endpoint : String) (s : SyncState) (key e : String)
    (hkey : cfg.apiKey = some key) (hfetch : env.fetch endpoint = .error e) :
    poll_givebutter_api cfg env endpoint s =
      ({ s with
          fetchCalls := s.fetchCalls + 1,
          errors := s.errors ++ ["API Error (" ++ endpoint ++ "): " ++ e] },
       generate_mock_data env.nowIso endpoint) ∧
    (∀ t ∈ mockTransactions env.nowIso, ∃ c ∈ mockContacts env.nowIso,
      t.getf "contact_id" = c.getf "id") ∧
    (∀ p ∈ mockPlans env.nowIso, ∃ c ∈ mockContacts env.nowIso,
      p.getf "contact_id" = c.getf "id") ∧
    (∀ dt ∈ dataTypes, ∃ ds meta, generate_mock_data env.nowIso dt = envelope ds meta) := by
  refine ⟨?_, ?_, ?_, ?_⟩
  · unfold poll_givebutter_api
    rw [hkey, hfetch]
  · intro t ht
    simp only [mockTransactions, List.mem_map, List.mem_range] at ht
    obtain ⟨i, hi, rfl⟩ := ht
    refine ⟨mockContact env.nowIso (i % 168), ?_, ?_⟩
    · simp only [mockContacts, List.mem_map, List.mem_range]
      exact ⟨i % 168, Nat.mod_lt i (by omega), rfl⟩
    · rfl
  · intro p hp
    simp only [mockPlans, List.mem_map, List.mem_range] at hp
    obtain ⟨i, hi, rfl⟩ := hp
    refine ⟨mockContact env.nowIso i, ?_, ?_⟩
    · simp only [mockContacts, List.mem_map, List.mem_range]
      exact ⟨i, by omega, rfl⟩
    · rfl
  · intro dt hdt
    fin_cases hdt
    · exact ⟨mockContacts env.nowIso, _, rfl⟩
    · exact ⟨mockTransactions env.nowIso, _, rfl⟩
    · exact ⟨mockPlans env.nowIso, _, rfl⟩
    · exact ⟨mockCampaigns env.nowIso, _, rfl⟩

/-- Witness for C7: a keyed configuration against an erroring fetch at
a concrete state records exactly one error entry and substitutes the
mock dataset. -/
theorem c7_fetch_error_mock_fallback_witness :
    poll_givebutter_api keyedCfg failFetchEnv "contacts" idleState =
      ({ idleState with
          fetchCalls := idleState.fetchCalls + 1,
          errors := idleState.errors ++ ["API Error (" ++ "contacts" ++ "): " ++ "ConnectTimeout"] },
       generate_mock_data failFetchEnv.nowIso "contacts") ∧
    (∀ t ∈ mockTransactions failFetchEnv.nowIso, ∃ c ∈ mockContacts failFetchEnv.nowIso,
      t.getf "contact_id" = c.getf "id") := by
  have h := c7_fetch_error_mock_fallback keyedCfg failFetchEnv "contacts" idleState
    "gb_key" "ConnectTimeout" rfl rfl
  exact ⟨h.1, h.2.1⟩

/-! ### C5: get_latest returns the lexicographically maximal snapshot -/

theorem pyMaxEntry_mem (b : String × Option Value) (bs : List (String × Option Value)) :
    pyMaxEntry b bs ∈ b :: bs := by
  induction bs generalizing b with
  | nil => simp [pyMaxEntry]
  | cons x xs ih =>
    show pyMaxEntry (if b.1.data < x.1.data then x else b) xs ∈ b :: x :: xs
    by_cases hbx : b.1.data < x.1.data
    · rw [if_pos hbx]
      rcases List.mem_cons.1 (ih x) with h | h
      · simp [h]
      · simp [List.mem_cons_of_mem, h]
    · rw [if_neg hbx]
      rcases List.mem_cons.1 (ih b) with h | h
      · simp [h]
      · simp [List.mem_cons_of_mem, h]

theorem pyMaxEntry_ub (b : String × Option Value) (bs : List (String × Option Value)) :
    ∀ p ∈ b :: bs, p.1.data ≤ (pyMaxEntry b bs).1.data := by
  induction bs generalizing b with
  | nil =>
    intro p hp
    simp only [List.mem_singleton] at hp
    simp [hp, pyMaxEntry]
  | cons x xs ih =>
    intro p hp
    show p.1.data ≤ (pyMaxEntry (if b.1.data < x.1.data then x else b) xs).1.data
    rcases List.mem_cons.1 hp with rfl | hp'
    · by_cases hbx : p.1.data < x.1.data
      · rw [if_pos hbx]
        exact le_trans (le_of_lt hbx) (ih x x (List.mem_cons_self x xs))
      · rw [if_neg hbx]
        exact ih p p (List.mem_cons_self p xs)
    · rcases List.mem_cons.1 hp' with rfl | hp''
      · by_cases hbx : b.1.data < p.1.data
        · rw [if_pos hbx]
          exact ih p p (List.mem_cons_self p xs)
        · rw [if_neg hbx]
          exact le_trans (le_of_not_lt hbx) (ih b b (List.mem_cons_self b xs))
      · exact ih _ p (List.mem_cons_of_mem _ hp'')

theorem eq_of_mem_nodupKeys {l : List (String × Option Value)}
    (hnd : (l.map Prod.fst).Nodup) {p q : String × Option Value}
    (hp : p ∈ l) (hq : q ∈ l) (hk : p.1 = q.1) : p = q := by
  induction l with
  | nil => cases hp
  | cons a tl ih =>
    rw [List.map_cons, List.nodup_cons] at hnd
    rcases List.mem_cons.1 hp with rfl | hp' <;> rcases List.mem_cons.1 hq with rfl | hq'
    · rfl
    · exact absurd (hk ▸ List.mem_map_of_mem Prod.fst hq') hnd.1
    · exact absurd (hk ▸ List.mem_map_of_mem Prod.fst hp') hnd.1
    · exact ih hnd.2 hp' hq'

theorem getLatestStandard_select (env : SyncEnv) (dt : String)
    (store : List (String × Option Value)) (k : String) (ov : Option Value)
    (hnd : (store.map Prod.fst).Nodup) (hmem : (k, ov) ∈ store)
    (hpf : inNamespace dt (k, ov) = true)
    (hub : ∀ p ∈ store, inNamespace dt p = true → p.1.data ≤ k.data)
    (hre : env.readErr k = false) :
    getLatestStandard env dt store = ov := by
  unfold getLatestStandard
  have hmemf : (k, ov) ∈ store.filter (inNamespace dt) :=
    List.mem_filter.2 ⟨hmem, hpf⟩
  cases hf : store.filter (inNamespace dt) with
  | nil => rw [hf] at hmemf; cases hmemf
  | cons b bs =>
    rw [hf] at hmemf
    have hlatest_mem : pyMaxEntry b bs ∈ b :: bs := pyMaxEntry_mem b bs
    have hmf : pyMaxEntry b bs ∈ store.filter (inNamespace dt) := hf ▸ hlatest_mem
    have hlatest_store : pyMaxEntry b bs ∈ store := List.mem_of_mem_filter hmf
    have hlatest_pfx : inNamespace dt (pyMaxEntry b bs) = true := List.of_mem_filter hmf
    have h1 : (pyMaxEntry b bs).1.data ≤ k.data := hub _ hlatest_store hlatest_pfx
    have h2 : k.data ≤ (pyMaxEntry b bs).1.data := pyMaxEntry_ub b bs (k, ov) hmemf
    have hkeq : (k, ov).1 = (pyMaxEntry b bs).1 := by
      have hdata : k.data = (pyMaxEntry b bs).1.data := le_antisymm h2 h1
      exact String.ext hdata
    have heq : (k, ov) = pyMaxEntry b bs :=
      eq_of_mem_nodupKeys hnd hmem hlatest_store hkeq
    show (if env.readErr (pyMaxEntry b bs).1 = true then none else (pyMaxEntry b bs).2) = ov
    rw [← heq]
    simp [hre]

theorem getLatestStandard_perm (env : SyncEnv) (dt : String)
    (store1 store2 : List (String × Option Value)) (hperm : store1.Perm store2)
    (hnd : (store1.map Prod.fst).Nodup) :
    getLatestStandard env dt store1 = getLatestStandard env dt store2 := by
  unfold getLatestStandard
  have hfilter := hperm.filter (inNamespace dt)
  cases hf1 : store1.filter (inNamespace dt) with
  | nil =>
    rw [hf1] at hfilter
    rw [List.nil_perm] at hfilter
    rw [hfilter]
  | cons b1 bs1 =>
    rw [hf1] at hfilter
    cases hf2 : store2.filter (inNamespace dt) with
    | nil =>
      rw [hf2] at hfilter
      exact absurd hfilter (by simp)
    
    | cons b2 bs2 =>
      rw [hf2] at hfilter
      have hm1 : pyMaxEntry b1 bs1 ∈ b1 :: bs1 := pyMaxEntry_mem b1 bs1
      have hm2 : pyMaxEntry b2 bs2 ∈ b2 :: bs2 := pyMaxEntry_mem b2 bs2
      have hm1s : pyMaxEntry b1 bs1 ∈ store1 := List.mem_of_mem_filter (hf1 ▸ hm1)
      have hm2s : pyMaxEntry b2 bs2 ∈ store1 := by
        have hmem2 : pyMaxEntry b2 bs2 ∈ store2.filter (inNamespace dt) := hf2 ▸ hm2
        exact hperm.symm.subset (List.mem_of_mem_filter hmem2)
      have h12 : (pyMaxEntry b1 bs1).1.data ≤ (pyMaxEntry b2 bs2).1.data :=
        pyMaxEntry_ub b2 bs2 _ (hfilter.subset hm1)
      have h21 : (pyMaxEntry b2 bs2).1.data ≤ (pyMaxEntry b1 bs1).1.data :=
        pyMaxEntry_ub b1 bs1 _ (hfilter.symm.subset hm2)
      have hkeq : (pyMaxEntry b1 bs1).1 = (pyMaxEntry b2 bs2).1 :=
        String.ext (le_antisymm h12 h21)
      have heq : pyMaxEntry b1 bs1 = pyMaxEntry b2 bs2 :=
        eq_of_mem_nodupKeys hnd hm1s hm2s hkeq
      show (if env.readErr (pyMaxEntry b1 bs1).1 = true then none else (pyMaxEntry b1 bs1).2) =
        (if env.readErr (pyMaxEntry b2 bs2).1 = true then none else (pyMaxEntry b2 bs2).2)
      rw [heq]

/-- C5: on the timestamped namespace (standard bucket), get_latest
returns the payload stored under the lexicographically maximal key of
the collection namespace; the result depends only on the bucket
contents, not on the order the blobs were written in; and it returns
none rather than raising when no key exists under the namespace, when
the maximal blob fails to parse (a stored none payload), or when the
download itself raises. -/
theorem c5_get_latest_lexicographic_max (cfg : Config) (env : SyncEnv)
    (s : SyncState) (dt : String) (hb : cfg.bucket ≠ "wlmn-donor-data") :
    (∀ k ov, (s.store.map Prod.fst).Nodup → (k, ov) ∈ s.store →
      inNamespace dt (k, ov) = true →
      (∀ p ∈ s.store, inNamespace dt p = true → p.1.data ≤ k.data) →
      env.readErr k = false →
      get_latest_data_from_gcs cfg env s dt = ov) ∧
    (∀ store2, s.store.Perm store2 → (s.store.map Prod.fst).Nodup →
      getLatestStandard env dt s.store = getLatestStandard env dt store2) ∧
    ((∀ p ∈ s.store, inNamespace dt p = false) →
      get_latest_data_from_gcs cfg env s dt = none) ∧
    (∀ k ov, (s.store.map Prod.fst).Nodup → (k, ov) ∈ s.store →
      inNamespace dt (k, ov) = true →
      (∀ p ∈ s.store, inNamespace dt p = true → p.1.data ≤ k.data) →
      env.readErr k = true →
      get_latest_data_from_gcs cfg env s dt = none) := by
  have hstd : get_latest_data_from_gcs cfg env s dt = getLatestStandard env dt s.store := by
    unfold get_latest_data_from_gcs
    rw [if_neg]
    exact fun h => hb h.1
  refine ⟨?_, ?_, ?_, ?_⟩
  · intro k ov hnd hmem hpf hub hre
    rw [hstd]
    exact getLatestStandard_select env dt s.store k ov hnd hmem hpf hub hre
  · intro store2 hperm hnd
    exact getLatestStandard_perm env dt s.store store2 hperm hnd
  · intro hnone
    rw [hstd]
    unfold getLatestStandard
    have hnil : s.store.filter (inNamespace dt) = [] := by
      rw [List.filter_eq_nil_iff]
      intro p hp
      simp [hnone p hp]
    rw [hnil]
  · intro k ov hnd hmem hpf hub hre
    rw [hstd]
    unfold getLatestStandard
    have hmemf : (k, ov) ∈ s.store.filter (inNamespace dt) :=
      List.mem_filter.2 ⟨hmem, hpf⟩
    cases hf : s.store.filter (inNamespace dt) with
    | nil => rfl
    | cons b bs =>
      rw [hf] at hmemf
      have hlatest_mem : pyMaxEntry b bs ∈ b :: bs := pyMaxEntry_mem b bs
      have hmf : pyMaxEntry b bs ∈ s.store.filter (inNamespace dt) := hf ▸ hlatest_mem
      have hlatest_store : pyMaxEntry b bs ∈ s.store := List.mem_of_mem_filter hmf
      have hlatest_pfx : inNamespace dt (pyMaxEntry b bs) = true := List.of_mem_filter hmf
      have h1 : (pyMaxEntry b bs).1.data ≤ k.data := hub _ hlatest_store hlatest_pfx
      have h2 : k.data ≤ (pyMaxEntry b bs).1.data := pyMaxEntry_ub b bs (k, ov) hmemf
      have hkeq : (k, ov).1 = (pyMaxEntry b bs).1 := String.ext (le_antisymm h2 h1)
      have heq : (k, ov) = pyMaxEntry b bs :=
        eq_of_mem_nodupKeys hnd hmem hlatest_store hkeq
      show (if env.readErr (pyMaxEntry b bs).1 = true then none else (pyMaxEntry b bs).2) = none
      rw [← heq]
      simp [hre]

/-- A two-snapshot bucket for the C5 witness. -/
def twoBlobStore : List (String × Option Value) :=
  [("givebutter-data/givebutter/contacts/20250101_000000.json", some (.vInt 1)),
   ("givebutter-data/givebutter/contacts/20250102_000000.json", some (.vInt 2))]

set_option maxRecDepth 4000 in
/-- Witness for C5: with two contacts snapshots in the bucket, the
later-keyed payload is returned, in either storage order. -/
theorem c5_get_latest_lexicographic_max_witness :
    get_latest_data_from_gcs baseCfg baseEnv
      { idleState with store := twoBlobStore } "contacts" = some (.vInt 2) ∧
    getLatestStandard baseEnv "contacts" twoBlobStore =
      getLatestStandard baseEnv "contacts" twoBlobStore.reverse := by
  have h := c5_get_latest_lexicographic_max baseCfg baseEnv
    { idleState with store := twoBlobStore } "contacts" (by decide)
  constructor
  · refine h.1 "givebutter-data/givebutter/contacts/20250102_000000.json"
      (some (.vInt 2)) (by decide) (by simp [twoBlobStore]) (by decide) ?_ rfl
    intro p hp hpf
    rcases List.mem_cons.1 hp with rfl | hp'
    · decide
    · rcases List.mem_cons.1 hp' with rfl | hp''
      · decide
      · cases hp''
  · exact h.2.1 twoBlobStore.reverse (List.reverse_perm twoBlobStore).symm (by decide)

/-! ### C4: donor count is the union of contact ids and transaction contact ids -/

theorem collectIds_eq (f : String) (l : List Value) :
    ∀ acc, (∀ r ∈ l, ∃ fs, r = Value.vDict fs) →
    (∀ v ∈ fieldVals f l, v.hashable = true) →
    collectIds f l acc = .ok (List.foldl setInsert acc (fieldVals f l)) := by
  induction l with
  | nil => intro acc _ _; rfl
  | cons r rest ih =>
    intro acc hd hh
    obtain ⟨fs, rfl⟩ := hd _ (List.mem_cons_self r rest)
    have hdr : ∀ q ∈ rest, ∃ gs, q = Value.vDict gs :=
      fun q hq => hd q (List.mem_cons_of_mem _ hq)
    cases hlk : lookupKey fs f with
    | none =>
      have hfv : fieldVals f (Value.vDict fs :: rest) = fieldVals f rest := by
        simp [fieldVals, List.filterMap_cons, Value.get?, hlk]
      rw [hfv]
      have hstep : collectIds f (Value.vDict fs :: rest) acc = collectIds f rest acc := by
        simp [collectIds, Value.pyGet, hlk, Value.truthy]
      rw [hstep]
      exact ih acc hdr (fun v hv => hh v (hfv ▸ hv))
    | some v =>
      by_cases htr : v.truthy = true
      · have hfv : fieldVals f (Value.vDict fs :: rest) = v :: fieldVals f rest := by
          simp [fieldVals, List.filterMap_cons, Value.get?, hlk, htr]
        rw [hfv]
        have hvh : v.hashable = true := hh v (by rw [hfv]; exact List.mem_cons_self _ _)
        have hstep : collectIds f (Value.vDict fs :: rest) acc =
            collectIds f rest (setInsert acc v) := by
          simp [collectIds, Value.pyGet, hlk, htr, setAdd, hvh]
        rw [hstep, List.foldl_cons]
        exact ih (setInsert acc v) hdr
          (fun w hw => hh w (by rw [hfv]; exact List.mem_cons_of_mem _ hw))
      · have hfv : fieldVals f (Value.vDict fs :: rest) = fieldVals f rest := by
          simp [fieldVals, List.filterMap_cons, Value.get?, hlk, htr]
        rw [hfv]
        have hstep : collectIds f (Value.vDict fs :: rest) acc = collectIds f rest acc := by
          simp [collectIds, Value.pyGet, hlk, htr]
        rw [hstep]
        exact ih acc hdr (fun w hw => hh w (hfv ▸ hw))

theorem foldl_setInsert_eq (vs : List Value) :
    ∀ acc, List.foldl setInsert acc vs =
      acc ++ pyNub (vs.filter (fun w => !(acc.any (fun u => Value.pyEq u w)))) := by
  induction vs with
  | nil => intro acc; simp
  | cons v rest ih =>
    intro acc
    rw [List.foldl_cons]
    rw [ih (setInsert acc v)]
    by_cases hmem : acc.any (fun u => Value.pyEq u v) = true
    · have hin : setInsert acc v = acc := by simp [setInsert, hmem]
      rw [hin]
      have hfl : (v :: rest).filter (fun w => !(acc.any (fun u => Value.pyEq u w))) =
          rest.filter (fun w => !(acc.any (fun u => Value.pyEq u w))) := by
        simp [List.filter_cons, hmem]
      rw [hfl]
    · have hin : setInsert acc v = acc ++ [v] := by simp [setInsert, hmem]
      rw [hin]
      have hfl : (v :: rest).filter (fun w => !(acc.any (fun u => Value.pyEq u w))) =
          v :: rest.filter (fun w => !(acc.any (fun u => Value.pyEq u w))) := by
        simp [List.filter_cons, hmem]
      rw [hfl, pyNub_cons]
      have hpred : rest.filter (fun w => !((acc ++ [v]).any (fun u => Value.pyEq u w))) =
          (rest.filter (fun w => !(acc.any (fun u => Value.pyEq u w)))).filter
            (fun w => !Value.pyEq v w) := by
        rw [List.filter_filter]
        apply List.filter_congr
        intro w _
        simp [List.any_append, Bool.not_or, Bool.and_comm]
      rw [hpred]
      simp

/-- C4 counterexample: the summary counts raw id values without string
normalization and skips falsy ids, so an integer contact id 1 joined
with a transaction contact_id "1" yields donor count 2 where the
claim's string-normalized union has size 1, and an empty-string contact
id yields count 0 where the claim's union has size 1. -/
theorem c4_counterexample_no_normalization :
    donorCountCode [.vDict [("id", .vInt 1)]] [.vDict [("contact_id", .vStr "1")]] = .ok 2 ∧
    donorCountNormalized [.vDict [("id", .vInt 1)]] [.vDict [("contact_id", .vStr "1")]] = 1 ∧
    donorCountCode [.vDict [("id", .vStr "")]] [] = .ok 0 ∧
    donorCountNormalized [.vDict [("id", .vStr "")]] [] = 1 :=
  ⟨rfl, by decide, rfl, by decide⟩

/-- C4 amended: the reconciler's donor count equals the size of the
union of the truthy Contact id values and the truthy Transaction
contact_id values, compared by Python equality without string
normalization; the 3-contact / 5-transaction fixture (2 transactions
referencing an unknown 4th contact) yields 4, the unknown contact_id
counting as a donor. -/
theorem c4_amended_donor_count_raw_union (contacts transactions : List Value)
    (hc : ∀ r ∈ contacts, ∃ fs, r = Value.vDict fs)
    (ht : ∀ r ∈ transactions, ∃ fs, r = Value.vDict fs)
    (hh : ∀ v ∈ fieldVals "id" contacts ++ fieldVals "contact_id" transactions,
      v.hashable = true) :
    donorCountCode contacts transactions = .ok (donorCountRaw contacts transactions) ∧
    donorCountCode fixtureContacts fixtureTransactions = .ok 4 ∧
    donorCountRaw fixtureContacts fixtureTransactions = 4 := by
  refine ⟨?_, rfl, by decide⟩
  have h1 := collectIds_eq "id" contacts [] hc
    (fun v hv => hh v (List.mem_append_left _ hv))
  have h2 := collectIds_eq "contact_id" transactions
    (List.foldl setInsert [] (fieldVals "id" contacts)) ht
    (fun v hv => hh v (List.mem_append_right _ hv))
  have hcomp : List.foldl setInsert
      (List.foldl setInsert [] (fieldVals "id" contacts))
      (fieldVals "contact_id" transactions) =
      List.foldl setInsert []
        (fieldVals "id" contacts ++ fieldVals "contact_id" transactions) :=
    (List.foldl_append _ _ _ _).symm
  show (do
    let ids1 ← collectIds "id" contacts []
    let ids2 ← collectIds "contact_id" transactions ids1
    pure ids2.length : Except String Nat) = _
  rw [h1]
  show (do
    let ids2 ← collectIds "contact_id" transactions
      (List.foldl setInsert [] (fieldVals "id" contacts))
    pure ids2.length : Except String Nat) = _
  rw [h2]
  show Except.ok (List.foldl setInsert
      (List.foldl setInsert [] (fieldVals "id" contacts))
      (fieldVals "contact_id" transactions)).length = _
  rw [hcomp, foldl_setInsert_eq]
  simp [donorCountRaw]

/-- Witness for the amended C4 at the fixture. -/
theorem c4_amended_donor_count_raw_union_witness :
    donorCountCode fixtureContacts fixtureTransactions =
      .ok (donorCountRaw fixtureContacts fixtureTransactions) := by
  have h := c4_amended_donor_count_raw_union fixtureContacts fixtureTransactions
    (by intro r hr; fin_cases hr <;> exact ⟨_, rfl⟩)
    (by intro r hr; fin_cases hr <;> exact ⟨_, rfl⟩)
    (by decide)
  exact h.1

/-! ### C8: exact integer aggregation, dollars only at the boundary -/

theorem sumAmountField_map_eq (amts : List Int) :
    ∀ acc : Int, sumAmountField (amts.map amountTxn) acc = .ok (acc + amts.sum) := by
  induction amts with
  | nil => intro acc; simp [sumAmountField]
  | cons a rest ih =>
    intro acc
    have h := ih (acc + a)
    simp [sumAmountField, amountTxn, Value.pyGet, lookupKey, Value.intAdd, h, add_assoc]

/-- C8 counterexample: for a negative cents total the code publishes a
dollar value of 0 instead of the claimed cents/100 (the source guards
the division with total_amount > 0). -/
theorem c8_counterexample_nonpositive_dollars :
    sumAmountField [amountTxn (-500)] 0 = .ok (-500) ∧
    dollarsValue (-500) = .vInt 0 ∧
    specDollars (-500) = -5 ∧
    (Value.vInt 0).toNum? = some 0 ∧ (0 : ℚ) ≠ -5 :=
  ⟨rfl, rfl, by norm_num [specDollars], rfl, by norm_num⟩

/-- C8 amended: the cents total is the exact integer sum of the
transaction amounts (no floating point in the aggregation path), and
the dollar value is derived only at the summary boundary as the cents
total divided by 100 whenever the total is positive (it is the integer
0 otherwise); the fixture [10000, 9671, 2500] sums to 22171 cents and
221.71 dollars. -/
theorem c8_amended_integer_cents_boundary_dollars (amts : List Int) (t : Int)
    (ht : 0 < t) :
    sumAmountField (amts.map amountTxn) 0 = .ok amts.sum ∧
    (dollarsValue t).toNum? = some (specDollars t) ∧
    sumAmountField [amountTxn 10000, amountTxn 9671, amountTxn 2500] 0 = .ok 22171 ∧
    (dollarsValue 22171).toNum? = some (221.71 : ℚ) := by
  refine ⟨?_, ?_, rfl, ?_⟩
  · simpa using sumAmountField_map_eq amts 0
  · simp [dollarsValue, ht, Value.toNum?, specDollars]
  · norm_num [dollarsValue, Value.toNum?]

/-- Witness for the amended C8 at the fixture. -/
theorem c8_amended_integer_cents_boundary_dollars_witness :
    sumAmountField [amountTxn 10000, amountTxn 9671, amountTxn 2500] 0 = .ok 22171 ∧
    (dollarsValue 22171).toNum? = some (specDollars 22171) := by
  have h := c8_amended_integer_cents_boundary_dollars [] 22171 (by norm_num)
  exact ⟨h.2.2.1, h.2.1⟩

/-! ### C9: recurring_frequency comes from the first active plan -/

theorem lookupKey_addGroup (k : String) (p : Value) :
    ∀ (m : List (String × List Value)) (k' : String),
      lookupKey (addGroup m k p) k' =
        if k' = k then some ((lookupKey m k).getD [] ++ [p]) else lookupKey m k' := by
  intro m
  induction m with
  | nil =>
    intro k'
    by_cases h : k' = k
    · subst h
      simp [addGroup, lookupKey]
    · simp [addGroup, lookupKey, h, Ne.symm h]
  | cons hd rest ih =>
    obtain ⟨k0, l0⟩ := hd
    intro k'
    by_cases h0 : k0 = k
    · subst h0
      by_cases h' : k' = k0
      · subst h'
        simp [addGroup, lookupKey]
      · simp [addGroup, lookupKey, h', Ne.symm h']
    · by_cases h' : k0 = k'
      · subst h'
        simp [addGroup, lookupKey, h0, Ne.symm h0]
      · simp [addGroup, lookupKey, h0, h', ih k']

theorem buildActivePlans_lookup (plans : List Value) :
    ∀ (m mm : List (String × List Value)),
      (∀ p ∈ plans, ∃ fs, p = Value.vDict fs) →
      buildActivePlans plans m = .ok mm →
      ∀ key, (lookupKey mm key).getD [] =
        (lookupKey m key).getD [] ++ plans.filter (planMatches key) := by
  induction plans with
  | nil =>
    intro m mm _ hb key
    simp only [buildActivePlans, Except.ok.injEq] at hb
    subst hb
    simp
  | cons p rest ih =>
    intro m mm hd hb key
    obtain ⟨fs, rfl⟩ := hd _ (List.mem_cons_self p rest)
    have hdr : ∀ q ∈ rest, ∃ gs, q = Value.vDict gs :=
      fun q hq => hd q (List.mem_cons_of_mem _ hq)
    simp only [buildActivePlans, Value.pyGet, exceptBind_ok] at hb
    by_cases hact :
        Value.pyEq ((lookupKey fs "status").getD Value.vNull) (Value.vStr "active") = true
    · rw [if_pos hact] at hb
      by_cases htr : ((lookupKey fs "contact_id").getD Value.vNull).truthy = true
      · rw [if_pos htr] at hb
        have hrec := ih
          (addGroup m (Value.pyStr ((lookupKey fs "contact_id").getD Value.vNull))
            (Value.vDict fs)) mm hdr hb key
        rw [hrec, lookupKey_addGroup]
        by_cases hkey : key = Value.pyStr ((lookupKey fs "contact_id").getD Value.vNull)
        · subst hkey
          rw [if_pos rfl]
          have hm : planMatches (Value.pyStr ((lookupKey fs "contact_id").getD Value.vNull))
              (Value.vDict fs) = true := by
            simp [planMatches, Value.getf, Value.get?, hact, htr]
          simp [List.filter_cons, hm, List.append_assoc]
        · rw [if_neg hkey]
          have hm : planMatches key (Value.vDict fs) = false := by
            simp only [planMatches, Value.getf, Value.get?, hact, htr, Bool.true_and]
            rw [beq_eq_false_iff_ne]
            exact fun h => hkey (Eq.symm h)
          simp [List.filter_cons, hm]
      · rw [if_neg htr] at hb
        have hrec := ih m mm hdr hb key
        rw [hrec]
        have htrf : ((lookupKey fs "contact_id").getD Value.vNull).truthy = false := by
          revert htr
          cases ((lookupKey fs "contact_id").getD Value.vNull).truthy <;> simp
        have hm : planMatches key (Value.vDict fs) = false := by
          simp [planMatches, Value.getf, Value.get?, htrf]
        simp [List.filter_cons, hm]
    · rw [if_neg hact] at hb
      have hrec := ih m mm hdr hb key
      rw [hrec]
      have hactf :
          Value.pyEq ((lookupKey fs "status").getD Value.vNull) (Value.vStr "active") = false := by
        revert hact
        cases Value.pyEq ((lookupKey fs "status").getD Value.vNull) (Value.vStr "active") <;> simp
      have hm : planMatches key (Value.vDict fs) = false := by
        simp [planMatches, Value.getf, Value.get?, hactf]
      simp [List.filter_cons, hm]

theorem enrichLoop_mem (tg pg : List (String × List Value)) :
    ∀ (contacts es : List Value), enrichLoop tg pg contacts = .ok es →
      ∀ x ∈ es, ∃ c ∈ contacts, enrichOne tg pg c = .ok x := by
  intro contacts
  induction contacts with
  | nil =>
    intro es hes x hx
    simp only [enrichLoop, Except.ok.injEq] at hes
    subst hes
    cases hx
  | cons c rest ih =>
    intro es hes x hx
    simp only [enrichLoop] at hes
    cases he : enrichOne tg pg c with
    | error e1 => rw [he] at hes; simp at hes
    | ok e =>
      rw [he] at hes
      cases hrest : enrichLoop tg pg rest with
      | error e2 => rw [hrest] at hes; simp at hes
      | ok es' =>
        rw [hrest] at hes
        simp only [exceptBind_ok, exceptPure_eq_ok, Except.ok.injEq] at hes
        subst hes
        rcases List.mem_cons.1 hx with rfl | hx'
        · exact ⟨c, List.mem_cons_self _ _, he⟩
        · obtain ⟨c', hc', he'⟩ := ih es' hrest x hx'
          exact ⟨c', List.mem_cons_of_mem _ hc', he'⟩

/-- C9 amended: for every enriched record the donor-data query
produces, recurringFrequency is the interval field of the first active
plan (fetch order, truthy contact_id, string-matched id) when that
field exists, the literal "monthly" when the first active plan lacks an
interval field, and null when the contact has no active plan; and every
record of the query's enriched list arises from enrichOne on one of the
contacts. -/
theorem c9_amended_frequency_first_active_plan
    (tg pg : List (String × List Value)) (plans : List Value) (c e : Value)
    (hd : ∀ p ∈ plans, ∃ fs, p = Value.vDict fs)
    (hpg : buildActivePlans plans [] = .ok pg)
    (hcd : ∃ cf, c = Value.vDict cf)
    (he : enrichOne tg pg c = .ok e) :
    e.getf "recurringFrequency" = amendedSpecFreq c plans ∧
    (∀ contacts es, enrichLoop tg pg contacts = .ok es →
      ∀ x ∈ es, ∃ c' ∈ contacts, enrichOne tg pg c' = .ok x) := by
  refine ⟨?_, enrichLoop_mem tg pg⟩
  obtain ⟨cf, rfl⟩ := hcd
  have hcplans : (lookupKey pg (Value.pyStr ((lookupKey cf "id").getD Value.vNull))).getD []
      = plans.filter (planMatches (Value.pyStr ((lookupKey cf "id").getD Value.vNull))) := by
    simpa using buildActivePlans_lookup plans [] pg hd hpg
      (Value.pyStr ((lookupKey cf "id").getD Value.vNull))
  simp only [enrichOne, Value.pyGet, exceptBind_ok] at he
  rw [hcplans] at he
  set key := Value.pyStr ((lookupKey cf "id").getD Value.vNull) with hkey
  cases hta : sumAmountField ((lookupKey tg key).getD []) 0 with
  | error e1 => rw [hta] at he; simp at he
  | ok ta =>
    rw [hta] at he
    cases hra : sumAmountField (plans.filter (planMatches key)) 0 with
    | error e2 => rw [hra] at he; simp at he
    | ok ra =>
      rw [hra] at he
      simp only [exceptBind_ok] at he
      cases hcp : plans.filter (planMatches key) with
      | nil =>
        rw [hcp] at he
        simp only [exceptBind_ok, exceptPure_eq_ok, Except.ok.injEq] at he
        subst he
        have hspec : amendedSpecFreq (Value.vDict cf) plans = Value.vNull := by
          simp only [amendedSpecFreq, Value.getf, Value.get?, ← hkey, hcp]
          rfl
        rw [hspec]
        simp [Value.getf, Value.get?, lookupKey]
      | cons p prest =>
        rw [hcp] at he
        have hpd : ∃ gs, p = Value.vDict gs :=
          hd p (List.mem_of_mem_filter (hcp ▸ List.mem_cons_self p prest))
        obtain ⟨gs, rfl⟩ := hpd
        simp only [Value.pyGet, exceptBind_ok, exceptPure_eq_ok, Except.ok.injEq] at he
        subst he
        have hspec : amendedSpecFreq (Value.vDict cf) plans =
            (lookupKey gs "interval").getD (Value.vStr "monthly") := by
          simp only [amendedSpecFreq, Value.getf, Value.get?, ← hkey, hcp]
          rfl
        rw [hspec]
        simp [Value.getf, Value.get?, lookupKey]

/-- An active plan without an interval field. -/
def planNoInterval : Value :=
  .vDict [("status", .vStr "active"), ("contact_id", .vStr "c1")]

/-- A bucket holding one contact and one active interval-less plan. -/
def donorStore9 : SyncState :=
  { idleState with store :=
      [("givebutter-data/givebutter/contacts/20250101_000000.json",
        some (.vDict [("data", .vList [.vDict [("id", .vStr "c1")]])])),
       ("givebutter-data/givebutter/plans/20250101_000000.json",
        some (.vDict [("data", .vList [planNoInterval])]))] }

/-- C9 counterexample: when the first active plan has no interval
field, the query publishes the literal "monthly" although the claimed
value — the plan's interval field — is absent. -/
theorem c9_counterexample_interval_default_monthly :
    ∃ r, get_donor_data baseCfg baseEnv donorStore9 100 0 = .ok r ∧
      r.data.map (fun e => e.getf "recurringFrequency") = [.vStr "monthly"] ∧
      specFreq (.vDict [("id", .vStr "c1")]) [planNoInterval] = .vNull ∧
      Value.vStr "monthly" ≠ Value.vNull := by
  refine ⟨_, rfl, rfl, rfl, fun h => Value.noConfusion h⟩

/-- A plan with a weekly interval for the C9 witness. -/
def planWeekly : Value :=
  .vDict [("status", .vStr "active"), ("contact_id", .vStr "c1"),
    ("interval", .vStr "weekly")]

/-- Witness for the amended C9 at a concrete contact and plan list. -/
theorem c9_amended_frequency_first_active_plan_witness :
    ∃ e, enrichOne [] [("c1", [planWeekly])] (.vDict [("id", .vStr "c1")]) = .ok e ∧
      e.getf "recurringFrequency" =
        amendedSpecFreq (.vDict [("id", .vStr "c1")]) [planWeekly] := by
  refine ⟨_, rfl, ?_⟩
  exact (c9_amended_frequency_first_active_plan [] [("c1", [planWeekly])] [planWeekly]
    (.vDict [("id", .vStr "c1")]) _
    (by
      intro p hp
      rcases List.mem_cons.1 hp with rfl | h
      · exact ⟨_, rfl⟩
      · cases h)
    rfl ⟨_, rfl⟩ rfl).1

/-! ### C10: pagination is partial at limit = 0, total for limit > 0 -/

/-- C10: with limit = 0 the donor-data request always fails with an
error (the page-index computation offset // limit + 1 divides by zero,
on every store state including the empty one); with limit > 0 and
offset >= 0, whenever the enriched list is produced the request
succeeds, its data is the slice [offset, offset+limit) of the enriched
list, and has_more holds exactly when offset + limit < total. -/
theorem c10_pagination_limit_partiality (cfg : Config) (env : SyncEnv)
    (s : SyncState) (limit offset : Int) :
    (limit = 0 → ∃ e, get_donor_data cfg env s limit offset = .error e) ∧
    (0 < limit → 0 ≤ offset → ∀ L, donorListOf cfg env s = .ok L →
      get_donor_data cfg env s limit offset =
        .ok ⟨pySlice L offset (offset + limit), (L.length : Int),
          Int.fdiv offset limit + 1, limit,
          decide (offset + limit < (L.length : Int))⟩) := by
  constructor
  · intro h0
    subst h0
    unfold get_donor_data
    cases hcd : get_latest_data_from_gcs cfg env s "contacts" with
    | none => exact ⟨_, rfl⟩
    | some cv =>
      dsimp only
      by_cases htr : cv.truthy = true
      · rw [if_pos htr]
        cases hef : enrichFromStore cv (get_latest_data_from_gcs cfg env s "transactions")
            (get_latest_data_from_gcs cfg env s "plans") with
        | error e => exact ⟨e, by simp [hef]⟩
        | ok L =>
          exact ⟨"ZeroDivisionError: integer division or modulo by zero",
            by simp [hef, pyFloorDiv]⟩
      · rw [if_neg htr]
        exact ⟨_, rfl⟩
  · intro hl ho L hL
    have hl0 : limit ≠ 0 := by omega
    have hnm : ¬(offset + limit < (0 : Int)) := by omega
    unfold donorListOf at hL
    unfold get_donor_data
    cases hcd : get_latest_data_from_gcs cfg env s "contacts" with
    | none =>
      rw [hcd] at hL
      dsimp only at hL ⊢
      simp only [Except.ok.injEq] at hL
      subst hL
      simp [emptyDonorPage, pyFloorDiv, hl0, pySlice, hnm]
    | some cv =>
      rw [hcd] at hL
      dsimp only at hL ⊢
      by_cases htr : cv.truthy = true
      · rw [if_pos htr] at hL ⊢
        rw [hL]
        simp [pyFloorDiv, hl0]
      · rw [if_neg htr] at hL ⊢
        simp only [Except.ok.injEq] at hL
        subst hL
        simp [emptyDonorPage, pyFloorDiv, hl0, pySlice, hnm]

/-- Witness for C10: on the empty store, limit 0 fails while limit 1
returns the empty page with has_more false. -/
theorem c10_pagination_limit_partiality_witness :
    (∃ e, get_donor_data baseCfg baseEnv idleState 0 5 = .error e) ∧
    get_donor_data baseCfg baseEnv idleState 1 0 =
      .ok ⟨pySlice [] 0 (0 + 1), 0, Int.fdiv 0 1 + 1, 1,
        decide ((0 : Int) + 1 < 0)⟩ := by
  exact ⟨(c10_pagination_limit_partiality baseCfg baseEnv idleState 0 5).1 rfl,
    (c10_pagination_limit_partiality baseCfg baseEnv idleState 1 0).2
      (by norm_num) (by norm_num) [] rfl⟩

/-! ### C2: reconciliation errors are caught but do not fail the cycle -/

/-- A bucket pre-seeded with a malformed contacts snapshot whose key
sorts above any timestamp this run writes. -/
def malformedStore : SyncState :=
  { idleState with store :=
      [("givebutter-data/givebutter/contacts/99999999_999999.json",
        some (.vDict [("data", .vInt 5)]))] }

/-- C2 counterexample: a full sync over a malformed latest contacts
snapshot has the reconciliation step raise; the error is caught and
recorded, the process does not crash — but the cycle finishes with
status "completed", not the claimed "failed". -/
theorem c2_counterexample_summary_error_completes :
    (sync_all_data baseCfg baseEnv malformedStore).2 = .ok () ∧
    (sync_all_data baseCfg baseEnv malformedStore).1.status = "completed" ∧
    (sync_all_data baseCfg baseEnv malformedStore).1.errors =
      ["Summary Generation Error: " ++ "TypeError: not iterable"] ∧
    "completed" ≠ "failed" := by
  refine ⟨rfl, rfl, rfl, by decide⟩

/-- C2 amended: when the four collection steps succeed and the summary
generation step raises, the error is caught, logged and appended to
the sync error list, the process does not crash (the call returns
normally), and the cycle finishes with status "completed" — the
failure is visible only in the error list. -/
theorem c2_amended_summary_error_caught_completed (cfg : Config) (env : SyncEnv)
    (s s2 s3 : SyncState) (e : String) (hs : s.status ≠ "syncing")
    (hloop : syncLoop cfg env dataTypes
      { s with status := "syncing", errors := [] } = (s2, .ok ()))
    (hsum : generateSummaryBody cfg env s2 = (s3, some e)) :
    ∃ s', sync_all_data cfg env s = (s', .ok ()) ∧ s'.status = "completed" ∧
      ("Summary Generation Error: " ++ e) ∈ s'.errors := by
  unfold sync_all_data
  rw [if_neg hs]
  dsimp only
  rw [hloop]
  dsimp only
  unfold generate_donor_summary
  rw [hsum]
  dsimp only
  exact ⟨_, rfl, rfl, by simp⟩

/-- Witness for the amended C2 on the malformed-snapshot run. -/
theorem c2_amended_summary_error_caught_completed_witness :
    ∃ s', sync_all_data baseCfg baseEnv malformedStore = (s', .ok ()) ∧
      s'.status = "completed" ∧
      ("Summary Generation Error: " ++ "TypeError: not iterable") ∈ s'.errors := by
  exact c2_amended_summary_error_caught_completed baseCfg baseEnv malformedStore
    (syncLoop baseCfg baseEnv dataTypes
      { malformedStore with status := "syncing", errors := [] }).1
    (generateSummaryBody baseCfg baseEnv
      (syncLoop baseCfg baseEnv dataTypes
        { malformedStore with status := "syncing", errors := [] }).1).1
    "TypeError: not iterable" (by decide) rfl rfl

example : strContains "contacts" "contacts" = true := by decide
example : Value.pyEq (.vInt 1) (.vStr "1") = false := by decide
example : Value.pyEq (.vStr "a") (.vStr "a") = true := by decide
example : (Value.vStr "").truthy = false := by decide
